import Mathlib

/-!
Verification development for the CSFML `SocketSelector` binding
(`src/SFML/Network/SocketSelector.cpp`).

The C source under `src/` is a thin binding over the Selector core
(`sf::SocketSelector`, reachable through `selector->This`): the binding
checks its pointer arguments (via the `CSFML_CHECK` / `CSFML_CALL` macro
family of `SFML/Internal.h`) and forwards each call to the core's
`Add` / `Remove` / `Clear` / `Wait` / `IsReady` operations, converting
each concrete endpoint kind (`sfTcpListener`, `sfTcpSocket`,
`sfUdpSocket`) to the common internal representation (`socket->This`,
the object exposing the pollable descriptor).

The Selector core itself and `SFML/Internal.h` are not under `src/`;
following the specification, the core is modelled here as a state
machine over sets of descriptors (Registry and readiness snapshot), the
OS readiness-multiplexing primitive as an oracle parameter, and the
`CSFML_CHECK` / `CSFML_CALL` macros as null-pointer guards returning the
stated default. NULL pointers are modelled as `Option.none`, `sfBool`
as `Bool` (`sfFalse = false`).
-/

namespace CSFML

/-- A native socket descriptor/handle, usable by the OS readiness
primitive. -/
abbrev Descriptor := Nat

/-- Modelled from the spec: the Selector core (`sf::SocketSelector`,
referenced by the binding as `selector->This` but not under `src/`).
It owns a Registry of registered endpoint descriptors and a readiness
snapshot — the set of descriptors determined ready by the most recent
`wait` call. -/
structure SocketSelector where
  registry : Finset Descriptor
  snapshot : Finset Descriptor
deriving DecidableEq

/-- Modelled from the spec: a Selector is created empty
(`sfSocketSelector_Create` allocates a default-constructed core). -/
def SocketSelector.create : SocketSelector :=
  { registry := ∅, snapshot := ∅ }

/-- Modelled from the spec: `add(endpoint)` inserts the endpoint's
descriptor into the Registry; idempotent for an already-registered
descriptor; no side effect beyond bookkeeping (does not touch the
snapshot). -/
def SocketSelector.Add (s : SocketSelector) (d : Descriptor) : SocketSelector :=
  { s with registry := insert d s.registry }

/-- Modelled from the spec: `remove(endpoint)` erases the endpoint's
descriptor from the Registry if present (no-op, not an error, if
absent), and also removes any stale readiness state for that
descriptor. -/
def SocketSelector.Remove (s : SocketSelector) (d : Descriptor) : SocketSelector :=
  { registry := s.registry.erase d, snapshot := s.snapshot.erase d }

/-- Modelled from the spec: `clear()` empties the Registry and
invalidates the snapshot. -/
def SocketSelector.Clear (_ : SocketSelector) : SocketSelector :=
  { registry := ∅, snapshot := ∅ }

/-- Modelled from the spec: `isReady(endpoint)` is a pure query against
the current snapshot; false for any endpoint not present in the latest
snapshot, including endpoints never registered. -/
def SocketSelector.IsReady (s : SocketSelector) (d : Descriptor) : Bool :=
  decide (d ∈ s.snapshot)

/-- Modelled from the spec: the timeout mode handed to the OS readiness
primitive. A `timeoutMillis` of 0 means an unbounded/system-default
wait (block indefinitely until readiness), any other value a wait
bounded by that many milliseconds. -/
inductive TimeoutMode where
  | unbounded : TimeoutMode
  | bounded (ms : Nat) : TimeoutMode
deriving DecidableEq

/-- Modelled from the spec: conversion of the caller's `timeoutMillis`
argument to the mode passed to the OS readiness primitive. -/
def timeoutMode (timeoutMillis : Nat) : TimeoutMode :=
  if timeoutMillis = 0 then TimeoutMode.unbounded else TimeoutMode.bounded timeoutMillis

/-- Result of one `wait` call: the success/failure indicator, the
Selector state afterwards, and — to make the interaction with the OS
observable — the timeout mode the OS readiness primitive was invoked
with (`none` when no OS call was attempted). -/
structure WaitResult where
  success : Bool
  state : SocketSelector
  osCall : Option TimeoutMode
deriving DecidableEq

/-- Modelled from the spec: `wait(timeoutMillis)`. The OS readiness
primitive is modelled as the oracle argument `os`: `none` means the
primitive reported no ready descriptor (timeout elapsed) or failed;
`some ready` means it returned successfully with `ready` as the set of
ready descriptors at that instant. An empty Registry is special-cased
as an immediate failure with no OS call attempted. On failure the
snapshot is cleared; on success it is fully replaced (not merged) by
the primitive's ready set. -/
def SocketSelector.Wait (s : SocketSelector) (timeoutMillis : Nat)
    (os : Option (Finset Descriptor)) : WaitResult :=
  if s.registry = ∅ then
    { success := false, state := { s with snapshot := ∅ }, osCall := none }
  else
    match os with
    | none =>
        { success := false
          state := { s with snapshot := ∅ }
          osCall := some (timeoutMode timeoutMillis) }
    | some ready =>
        { success := true
          state := { s with snapshot := ready }
          osCall := some (timeoutMode timeoutMillis) }

/-- One mutating Selector operation, as available between waits. -/
inductive SelOp where
  | add (d : Descriptor) : SelOp
  | remove (d : Descriptor) : SelOp
  | clear : SelOp
  | wait (timeoutMillis : Nat) (os : Option (Finset Descriptor)) : SelOp

/-- State transition of a single operation on the Selector core. -/
def SelOp.apply : SelOp → SocketSelector → SocketSelector
  | SelOp.add d, s => s.Add d
  | SelOp.remove d, s => s.Remove d
  | SelOp.clear, s => s.Clear
  | SelOp.wait t os, s => (s.Wait t os).state

/-- A Registry-mutation call (`add` or `remove`), for replaying
call sequences. -/
inductive RegOp where
  | add (d : Descriptor) : RegOp
  | remove (d : Descriptor) : RegOp

/-- Replay of a sequence of `add`/`remove` calls on a Selector. -/
def replay : List RegOp → SocketSelector → SocketSelector
  | [], s => s
  | RegOp.add d :: rest, s => replay rest (s.Add d)
  | RegOp.remove d :: rest, s => replay rest (s.Remove d)

/-- The mathematical set obtained by replaying set-insert/set-erase in
order, following the spec's words (the reference semantics the
Registry is compared against). -/
def mathSet : List RegOp → Finset Descriptor → Finset Descriptor
  | [], m => m
  | RegOp.add d :: rest, m => mathSet rest (insert d m)
  | RegOp.remove d :: rest, m => mathSet rest (m.erase d)

/-- The C-level TCP listener object: `socket->This` is the wrapped
endpoint, which the Selector uses only through its pollable
descriptor; it is modelled by that descriptor. -/
structure sfTcpListener where
  This : Descriptor
deriving DecidableEq

/-- The C-level TCP stream-socket object, modelled by the descriptor
its wrapped endpoint exposes. -/
structure sfTcpSocket where
  This : Descriptor
deriving DecidableEq

/-- The C-level UDP datagram-socket object, modelled by the descriptor
its wrapped endpoint exposes. -/
structure sfUdpSocket where
  This : Descriptor
deriving DecidableEq

/-- Binding of `sfSocketSelector_AddTcpListener`: `CSFML_CHECK(socket)`
returns without effect on a NULL socket, `CSFML_CALL(selector, Add(socket->This))`
is a no-op on a NULL selector and otherwise forwards to the core's
`Add`. The returned value is the selector's state after the call. -/
def sfSocketSelector_AddTcpListener (selector : Option SocketSelector)
    (socket : Option sfTcpListener) : Option SocketSelector :=
  match socket with
  | none => selector
  | some sock =>
      match selector with
      | none => none
      | some sel => some (sel.Add sock.This)

/-- Binding of `sfSocketSelector_AddTcpSocket` (same shape as the
listener entry point). -/
def sfSocketSelector_AddTcpSocket (selector : Option SocketSelector)
    (socket : Option sfTcpSocket) : Option SocketSelector :=
  match socket with
  | none => selector
  | some sock =>
      match selector with
      | none => none
      | some sel => some (sel.Add sock.This)

/-- Binding of `sfSocketSelector_AddUdpSocket` (same shape as the
listener entry point). -/
def sfSocketSelector_AddUdpSocket (selector : Option SocketSelector)
    (socket : Option sfUdpSocket) : Option SocketSelector :=
  match socket with
  | none => selector
  | some sock =>
      match selector with
      | none => none
      | some sel => some (sel.Add sock.This)

/-- Binding of `sfSocketSelector_RemoveTcpListener`. -/
def sfSocketSelector_RemoveTcpListener (selector : Option SocketSelector)
    (socket : Option sfTcpListener) : Option SocketSelector :=
  match socket with
  | none => selector
  | some sock =>
      match selector with
      | none => none
      | some sel => some (sel.Remove sock.This)

/-- Binding of `sfSocketSelector_RemoveTcpSocket`. -/
def sfSocketSelector_RemoveTcpSocket (selector : Option SocketSelector)
    (socket : Option sfTcpSocket) : Option SocketSelector :=
  match socket with
  | none => selector
  | some sock =>
      match selector with
      | none => none
      | some sel => some (sel.Remove sock.This)

/-- Binding of `sfSocketSelector_RemoveUdpSocket`. -/
def sfSocketSelector_RemoveUdpSocket (selector : Option SocketSelector)
    (socket : Option sfUdpSocket) : Option SocketSelector :=
  match socket with
  | none => selector
  | some sock =>
      match selector with
      | none => none
      | some sel => some (sel.Remove sock.This)

/-- Binding of `sfSocketSelector_Clear`: `CSFML_CALL(selector, Clear())`
is a no-op on a NULL selector. -/
def sfSocketSelector_Clear (selector : Option SocketSelector) : Option SocketSelector :=
  match selector with
  | none => none
  | some sel => some sel.Clear

/-- Binding of `sfSocketSelector_Wait`:
`CSFML_CALL_RETURN(selector, Wait(timeout), sfFalse)` returns `sfFalse`
on a NULL selector without any call; otherwise it forwards to the
core's `Wait`. Returns the `sfBool` result together with the selector's
state after the call. -/
def sfSocketSelector_Wait (selector : Option SocketSelector) (timeout : Nat)
    (os : Option (Finset Descriptor)) : Bool × Option SocketSelector :=
  match selector with
  | none => (false, none)
  | some sel =>
      let r := sel.Wait timeout os
      (r.success, some r.state)

/-- Binding of `sfSocketSelector_IsTcpListenerReady`:
`CSFML_CHECK_RETURN(socket, sfFalse)` then
`CSFML_CALL_RETURN(selector, IsReady(socket->This), sfFalse)`. -/
def sfSocketSelector_IsTcpListenerReady (selector : Option SocketSelector)
    (socket : Option sfTcpListener) : Bool :=
  match socket with
  | none => false
  | some sock =>
      match selector with
      | none => false
      | some sel => sel.IsReady sock.This

/-- Binding of `sfSocketSelector_IsTcpSocketReady`. -/
def sfSocketSelector_IsTcpSocketReady (selector : Option SocketSelector)
    (socket : Option sfTcpSocket) : Bool :=
  match socket with
  | none => false
  | some sock =>
      match selector with
      | none => false
      | some sel => sel.IsReady sock.This

/-- Binding of `sfSocketSelector_IsUdpSocketReady`. -/
def sfSocketSelector_IsUdpSocketReady (selector : Option SocketSelector)
    (socket : Option sfUdpSocket) : Bool :=
  match socket with
  | none => false
  | some sel2 =>
      match selector with
      | none => false
      | some sel => sel.IsReady sel2.This

/-- A heap of live Selector objects (addresses to states), with a fresh
allocation counter; models the identity of distinct `sfSocketSelector`
allocations so that independence of a copy from its source is
expressible. -/
structure SelStore where
  heap : Nat → Option SocketSelector
  next : Nat

/-- Well-formedness of the heap: no object lives at or above the fresh
counter. -/
def SelStore.WF (st : SelStore) : Prop :=
  ∀ k, st.next ≤ k → st.heap k = none

/-- Binding of `sfSocketSelector_Copy`:
`CSFML_CHECK_RETURN(selector, NULL)` returns NULL on a NULL source;
otherwise `new sfSocketSelector(*selector)` allocates a fresh object
whose state (Registry and snapshot) is a value copy of the source's.
Returns the updated store and the address of the copy (`none` for
NULL). -/
def SelStore.copy (st : SelStore) (src : Nat) : SelStore × Option Nat :=
  match st.heap src with
  | none => (st, none)
  | some s =>
      ({ heap := fun j => if j = st.next then some s else st.heap j
         next := st.next + 1 },
       some st.next)

/-- Running one Selector operation on the object at address `k`
(a no-op when nothing lives there, as the binding's null guards
ensure). -/
def SelStore.run (st : SelStore) (k : Nat) (op : SelOp) : SelStore :=
  { st with
    heap := fun j => if j = k then (st.heap k).map op.apply else st.heap j }

/-- Binding of `sfSocketSelector_Copy` at the value level:
`CSFML_CHECK_RETURN(selector, NULL)` returns NULL for a NULL source;
otherwise the copy's state is a value copy of the source's (the
allocation of a fresh object is modelled by `SelStore.copy`). -/
def sfSocketSelector_Copy (selector : Option SocketSelector) : Option SocketSelector :=
  match selector with
  | none => none
  | some sel => some sel

/-- A concrete one-object store, for evaluating the copy-independence
theorem on explicit inputs. -/
def exampleStore : SelStore :=
  { heap := fun j => if j = 0 then some SocketSelector.create else none
    next := 1 }

/-- C1: for every timeout value and every OS oracle, `wait` on an empty
Registry returns failure and never invokes the OS readiness
primitive. -/
theorem wait_empty_registry_fails (s : SocketSelector) (t : Nat)
    (os : Option (Finset Descriptor)) (h : s.registry = ∅) :
    (s.Wait t os).success = false ∧ (s.Wait t os).osCall = none := by
  simp [SocketSelector.Wait, h]

/-- Witness for C1: evaluated on the freshly created (empty) Selector
with timeout 500 and an oracle that would report descriptor 3 ready. -/
theorem wait_empty_registry_fails_witness :
    (SocketSelector.create.Wait 500 (some {3})).success = false ∧
    (SocketSelector.create.Wait 500 (some {3})).osCall = none :=
  wait_empty_registry_fails SocketSelector.create 500 (some {3}) rfl

/-- C2: with a nonempty Registry, `wait` with `timeoutMillis = 0` does
invoke the OS readiness primitive — it does not return immediately —
and hands it the unbounded/system-default wait mode, so the call
blocks until readiness. -/
theorem wait_zero_timeout_unbounded (s : SocketSelector)
    (os : Option (Finset Descriptor)) (h : s.registry ≠ ∅) :
    timeoutMode 0 = TimeoutMode.unbounded ∧
    (s.Wait 0 os).osCall = some TimeoutMode.unbounded := by
  refine ⟨rfl, ?_⟩
  cases os <;> simp [SocketSelector.Wait, h, timeoutMode]

/-- Witness for C2: evaluated on a Selector holding descriptor 3, with
an oracle reporting no readiness. -/
theorem wait_zero_timeout_unbounded_witness :
    timeoutMode 0 = TimeoutMode.unbounded ∧
    ((SocketSelector.create.Add 3).Wait 0 none).osCall = some TimeoutMode.unbounded :=
  wait_zero_timeout_unbounded (SocketSelector.create.Add 3) none (by decide)

/-- C3: whenever `wait` returns failure (timeout, empty Registry, or
OS-primitive failure), the snapshot is cleared: `isReady` is false for
every endpoint afterwards. -/
theorem wait_failure_clears_snapshot (s : SocketSelector) (t : Nat)
    (os : Option (Finset Descriptor)) (e : Descriptor)
    (h : (s.Wait t os).success = false) :
    (s.Wait t os).state.IsReady e = false := by
  by_cases hreg : s.registry = ∅
  · simp [SocketSelector.Wait, hreg, SocketSelector.IsReady]
  · cases os with
    | none => simp [SocketSelector.Wait, hreg, SocketSelector.IsReady]
    | some ready => simp [SocketSelector.Wait, hreg] at h

/-- Witness for C3: a Selector holding descriptor 3 with a stale
snapshot reporting 3 ready; the OS oracle reports failure, and
readiness of 3 is queried after the failed wait. -/
theorem wait_failure_clears_snapshot_witness :
    (({ registry := {3}, snapshot := {3} : SocketSelector }.Wait 100 none).state.IsReady 3)
      = false :=
  wait_failure_clears_snapshot { registry := {3}, snapshot := {3} } 100 none 3 (by decide)

/-- C4: whenever `wait` returns success, the snapshot is fully replaced
(not merged) by the OS primitive's ready set for that call: `isReady e`
is true exactly when `e` is in that ready set, and false for every
other endpoint, registered or removed. -/
theorem wait_success_snapshot_replaced (s : SocketSelector) (t : Nat)
    (ready : Finset Descriptor) (e : Descriptor) (h : s.registry ≠ ∅) :
    (s.Wait t (some ready)).success = true ∧
    ((s.Wait t (some ready)).state.IsReady e = true ↔ e ∈ ready) := by
  simp [SocketSelector.Wait, h, SocketSelector.IsReady]

/-- Witness for C4: a Selector holding descriptors 3 and 5, with a
stale snapshot containing 5; the OS reports exactly descriptor 3
ready, and readiness of 3 is queried after the successful wait. -/
theorem wait_success_snapshot_replaced_witness :
    (((SocketSelector.create.Add 3).Add 5).Wait 100 (some {3})).success = true ∧
    ((((SocketSelector.create.Add 3).Add 5).Wait 100 (some {3})).state.IsReady 3 = true ↔
      (3 : Descriptor) ∈ ({3} : Finset Descriptor)) :=
  wait_success_snapshot_replaced ((SocketSelector.create.Add 3).Add 5) 100 {3} 3 (by decide)

/-- C5: replaying any sequence of `add`/`remove` calls gives the
Registry exactly the mathematical set obtained by replaying
insert/erase in order; `add` of an already-registered descriptor is
idempotent, and `remove` of an absent descriptor leaves the Registry
unchanged (a no-op, never an error). -/
theorem registry_is_replayed_set (ops : List RegOp) (s : SocketSelector)
    (d : Descriptor) (h : d ∉ s.registry) :
    (replay ops s).registry = mathSet ops s.registry ∧
    (s.Add d).Add d = s.Add d ∧
    (s.Remove d).registry = s.registry := by
  refine ⟨?_, ?_, ?_⟩
  · clear h
    induction ops generalizing s with
    | nil => rfl
    | cons op rest ih =>
      cases op with
      | add a => exact ih (s.Add a)
      | remove a => exact ih (s.Remove a)
  · simp [SocketSelector.Add, Finset.insert_idem]
  · exact Finset.erase_eq_of_not_mem h

/-- Witness for C5: the sequence add 3, add 3, remove 5, add 4,
remove 3 replayed from the empty Selector, with descriptor 7 absent. -/
theorem registry_is_replayed_set_witness :
    (replay [RegOp.add 3, RegOp.add 3, RegOp.remove 5, RegOp.add 4, RegOp.remove 3]
        SocketSelector.create).registry =
      mathSet [RegOp.add 3, RegOp.add 3, RegOp.remove 5, RegOp.add 4, RegOp.remove 3]
        SocketSelector.create.registry ∧
    (SocketSelector.create.Add 7).Add 7 = SocketSelector.create.Add 7 ∧
    (SocketSelector.create.Remove 7).registry = SocketSelector.create.registry :=
  registry_is_replayed_set
    [RegOp.add 3, RegOp.add 3, RegOp.remove 5, RegOp.add 4, RegOp.remove 3]
    SocketSelector.create 7 (by decide)

/-- C6: after `clear()` the Registry is empty and the snapshot is
invalidated: `isReady e` is false for every endpoint `e`, including
every previously registered one. -/
theorem clear_empties_registry_and_snapshot (s : SocketSelector) (e : Descriptor) :
    s.Clear.registry = ∅ ∧ s.Clear.IsReady e = false := by
  simp [SocketSelector.Clear, SocketSelector.IsReady]

/-- C7: `remove e` also erases any readiness state recorded for `e`'s
descriptor: without re-adding and with no intervening `wait`,
`isReady e` is false afterwards, even if `e` was in the snapshot. -/
theorem remove_erases_readiness (s : SocketSelector) (e : Descriptor) :
    (s.Remove e).IsReady e = false := by
  simp [SocketSelector.Remove, SocketSelector.IsReady]

/-- C8: copying a Selector allocates a fresh object whose Registry and
snapshot equal the source's at copy time, and the two objects are
independent: any subsequent add/remove/clear/wait applied to either
one leaves the other's state unchanged, in both directions. -/
theorem copy_is_deep_and_independent (st : SelStore) (src : Nat)
    (s : SocketSelector) (op : SelOp) (hwf : st.WF)
    (hsrc : st.heap src = some s) :
    (st.copy src).2 = some st.next ∧
    (st.copy src).1.heap st.next = some s ∧
    (st.copy src).1.heap src = some s ∧
    ((st.copy src).1.run st.next op).heap src = some s ∧
    ((st.copy src).1.run src op).heap st.next = some s := by
  have hne : src ≠ st.next := by
    intro hcontra
    rw [hcontra, hwf st.next le_rfl] at hsrc
    exact Option.noConfusion hsrc
  refine ⟨?_, ?_, ?_, ?_, ?_⟩ <;>
    simp [SelStore.copy, SelStore.run, hsrc, hne, Ne.symm hne]

/-- Witness for C8: a one-object store holding the empty Selector at
address 0; the copy lands at address 1, and adding descriptor 3 to
either object leaves the other unchanged. -/
theorem copy_is_deep_and_independent_witness :
    (exampleStore.copy 0).2 = some 1 ∧
    (exampleStore.copy 0).1.heap 1 = some SocketSelector.create ∧
    (exampleStore.copy 0).1.heap 0 = some SocketSelector.create ∧
    ((exampleStore.copy 0).1.run 1 (SelOp.add 3)).heap 0 = some SocketSelector.create ∧
    ((exampleStore.copy 0).1.run 0 (SelOp.add 3)).heap 1 = some SocketSelector.create :=
  copy_is_deep_and_independent exampleStore 0 SocketSelector.create (SelOp.add 3)
    (fun k hk => by
      have hk1 : 1 ≤ k := hk
      show (if k = 0 then some SocketSelector.create else none) = none
      rw [if_neg (by omega)])
    rfl

/-- C9: the three kind-specific entry points of each operation are
behaviorally equivalent — for endpoints of different kinds exposing
the same underlying descriptor, add/remove/isReady give identical
results — and each converts its endpoint to the common internal
representation (`socket->This`) and forwards to the single internal
`Add`/`Remove`/`IsReady` operation. -/
theorem endpoint_kinds_equivalent (sel : Option SocketSelector)
    (s : SocketSelector) (l : sfTcpListener) (t : sfTcpSocket) (u : sfUdpSocket)
    (ht : t.This = l.This) (hu : u.This = l.This) :
    sfSocketSelector_AddTcpListener sel (some l) = sfSocketSelector_AddTcpSocket sel (some t) ∧
    sfSocketSelector_AddTcpListener sel (some l) = sfSocketSelector_AddUdpSocket sel (some u) ∧
    sfSocketSelector_RemoveTcpListener sel (some l) = sfSocketSelector_RemoveTcpSocket sel (some t) ∧
    sfSocketSelector_RemoveTcpListener sel (some l) = sfSocketSelector_RemoveUdpSocket sel (some u) ∧
    sfSocketSelector_IsTcpListenerReady sel (some l) = sfSocketSelector_IsTcpSocketReady sel (some t) ∧
    sfSocketSelector_IsTcpListenerReady sel (some l) = sfSocketSelector_IsUdpSocketReady sel (some u) ∧
    sfSocketSelector_AddTcpListener (some s) (some l) = some (s.Add l.This) ∧
    sfSocketSelector_RemoveTcpListener (some s) (some l) = some (s.Remove l.This) ∧
    sfSocketSelector_IsTcpListenerReady (some s) (some l) = s.IsReady l.This := by
  cases sel <;>
    simp [sfSocketSelector_AddTcpListener, sfSocketSelector_AddTcpSocket,
      sfSocketSelector_AddUdpSocket, sfSocketSelector_RemoveTcpListener,
      sfSocketSelector_RemoveTcpSocket, sfSocketSelector_RemoveUdpSocket,
      sfSocketSelector_IsTcpListenerReady, sfSocketSelector_IsTcpSocketReady,
      sfSocketSelector_IsUdpSocketReady, ht, hu]

/-- Witness for C9: a listener, a TCP socket and a UDP socket all
exposing descriptor 5, against the empty Selector. -/
theorem endpoint_kinds_equivalent_witness :
    sfSocketSelector_AddTcpListener (some SocketSelector.create) (some ⟨5⟩) =
      sfSocketSelector_AddTcpSocket (some SocketSelector.create) (some ⟨5⟩) ∧
    sfSocketSelector_AddTcpListener (some SocketSelector.create) (some ⟨5⟩) =
      sfSocketSelector_AddUdpSocket (some SocketSelector.create) (some ⟨5⟩) ∧
    sfSocketSelector_RemoveTcpListener (some SocketSelector.create) (some ⟨5⟩) =
      sfSocketSelector_RemoveTcpSocket (some SocketSelector.create) (some ⟨5⟩) ∧
    sfSocketSelector_RemoveTcpListener (some SocketSelector.create) (some ⟨5⟩) =
      sfSocketSelector_RemoveUdpSocket (some SocketSelector.create) (some ⟨5⟩) ∧
    sfSocketSelector_IsTcpListenerReady (some SocketSelector.create) (some ⟨5⟩) =
      sfSocketSelector_IsTcpSocketReady (some SocketSelector.create) (some ⟨5⟩) ∧
    sfSocketSelector_IsTcpListenerReady (some SocketSelector.create) (some ⟨5⟩) =
      sfSocketSelector_IsUdpSocketReady (some SocketSelector.create) (some ⟨5⟩) ∧
    sfSocketSelector_AddTcpListener (some SocketSelector.create) (some ⟨5⟩) =
      some (SocketSelector.create.Add 5) ∧
    sfSocketSelector_RemoveTcpListener (some SocketSelector.create) (some ⟨5⟩) =
      some (SocketSelector.create.Remove 5) ∧
    sfSocketSelector_IsTcpListenerReady (some SocketSelector.create) (some ⟨5⟩) =
      SocketSelector.create.IsReady 5 :=
  endpoint_kinds_equivalent (some SocketSelector.create) SocketSelector.create
    ⟨5⟩ ⟨5⟩ ⟨5⟩ rfl rfl

/-- C10: every public entry point guards its pointer arguments: with a
NULL socket the add/remove functions leave the selector unchanged and
the isReady queries return `sfFalse`; with a NULL selector `Copy`
returns NULL and `Wait` returns `sfFalse`; no NULL argument is ever
dereferenced (every access goes through these guards). -/
theorem null_arguments_are_guarded (sel : Option SocketSelector) (t : Nat)
    (os : Option (Finset Descriptor)) :
    sfSocketSelector_AddTcpListener sel none = sel ∧
    sfSocketSelector_AddTcpSocket sel none = sel ∧
    sfSocketSelector_AddUdpSocket sel none = sel ∧
    sfSocketSelector_RemoveTcpListener sel none = sel ∧
    sfSocketSelector_RemoveTcpSocket sel none = sel ∧
    sfSocketSelector_RemoveUdpSocket sel none = sel ∧
    sfSocketSelector_IsTcpListenerReady sel none = false ∧
    sfSocketSelector_IsTcpSocketReady sel none = false ∧
    sfSocketSelector_IsUdpSocketReady sel none = false ∧
    sfSocketSelector_Copy none = none ∧
    (sfSocketSelector_Wait none t os).1 = false := by
  refine ⟨rfl, rfl, rfl, rfl, rfl, rfl, rfl, rfl, rfl, rfl, rfl⟩

end CSFML
